import Mathlib

/-!
# Verification of GW2Bot catalog sync, disambiguation and market analytics

Shallow embedding of `guildwars2/database.py` and `guildwars2/commerce.py`.
Pure computations (undercut counting, currency decomposition, batching,
name matching, duplicate grouping) are translated directly; the stateful
orchestration of `rebuild_database` is modelled as explicit state passing
over an environment that records which fallible collaborator calls fail.
-/

namespace GW2Bot

/-! ## Market analytics (`commerce.py`) -/

/-- One market offer from `commerce/listings`: `{"unit_price": ..., "listings": ...}`. -/
structure Offer where
  unit_price : Nat
  listings : Nat
  deriving DecidableEq, Repr

/-- The transaction side selected in `tp_current` (`buys` or `sells`). -/
inductive Side where
  | buys
  | sells
  deriving DecidableEq, Repr

/-- The side-specific comparator: `op = operator.lt if state == "buys" else operator.gt`
(`commerce.py` line 76). -/
def sideOp (side : Side) (a b : Nat) : Bool :=
  match side with
  | .buys => a < b
  | .sells => a > b

/-- The undercut accumulation loop of `tp_current` (`commerce.py` lines 75-80):
`undercuts = 0; for offer in offers: if op(offer["unit_price"], price): break;
undercuts += offer["listings"]`. -/
def undercutCount (price : Nat) (side : Side) : List Offer → Nat
  | [] => 0
  | o :: rest =>
    if sideOp side o.unit_price price then 0
    else o.listings + undercutCount price side rest

/-- `max_price = offers[0]["unit_price"]` (`commerce.py` line 74); the subscript
is unguarded in the source, so the embedding returns `none` exactly when the
offer list is empty (the `IndexError` branch). -/
def bestOffer (offers : List Offer) : Option Nat :=
  offers.head?.map Offer.unit_price

/-- `gold_to_coins` decomposition (`commerce.py` lines 207-209):
`gold, remainder = divmod(money, 10000); silver, copper = divmod(remainder, 100)`. -/
structure CoinBreakdown where
  gold : Nat
  silver : Nat
  copper : Nat
  deriving DecidableEq, Repr

def gold_to_coins (money : Nat) : CoinBreakdown :=
  let gold := money / 10000
  let remainder := money % 10000
  ⟨gold, remainder / 100, remainder % 100⟩

/-- The rendering step of `gold_to_coins` (`commerce.py` lines 210-217): each
denomination becomes the string `"<value><emoji>"` when its value is truthy and
`""` otherwise, and the final result joins the non-empty pieces
(`"".join(filter(None, [gold, silver, copper]))`).  The emoji placeholder is
kept symbolic. -/
def coinPiece (value : Nat) (emoji : String) : String :=
  if value ≠ 0 then toString value ++ emoji else ""

def coinRender (money : Nat) : List String :=
  let b := gold_to_coins money
  ([coinPiece b.gold "{gold}", coinPiece b.silver "{silver}",
    coinPiece b.copper "{copper}"]).filter (fun s => s ≠ "")

/-- Spec-side rendering, following the spec's words: each denomination whose
value is zero is omitted from the rendered output; the others appear in
gold, silver, copper order.  Compared against `coinRender` (from the source)
in the C9 theorem. -/
def coinRenderSpec (money : Nat) : List String :=
  let b := gold_to_coins money
  (if b.gold = 0 then [] else [toString b.gold ++ "{gold}"]) ++
    (if b.silver = 0 then [] else [toString b.silver ++ "{silver}"]) ++
      (if b.copper = 0 then [] else [toString b.copper ++ "{copper}"])

/-- Offers as delivered by the remote source are sorted in the side's priority
order: ascending unit price for sell offers, descending for buy offers
(spec §3, `MarketOffer`). -/
def sideSorted (side : Side) : List Offer → Bool
  | [] => true
  | [_] => true
  | a :: b :: rest =>
    (match side with
     | .sells => decide (a.unit_price ≤ b.unit_price)
     | .buys => decide (b.unit_price ≤ a.unit_price)) &&
      sideSorted side (b :: rest)

/-! ## Catalog sync engine (`database.py`: `cache_endpoint`, `rebuild_database`) -/

/-- Python exceptions that the embedding makes explicit. -/
inductive PyErr where
  | zeroDivisionError
  | apiError
  | ownerSendError
  | createIndexError
  deriving DecidableEq, Repr

/-- The batching loop of `cache_endpoint` in non-paginated mode
(`database.py` lines 160-172): starting from `counter = 0`, each iteration
takes the slice `items[counter:counter+200]`, stops when the comma-joined id
string is empty (which, ids being decimal numerals, happens exactly when the
slice is empty), fetches that batch, and advances `counter` by 200.  The
returned list is the sequence of batch fetches issued. -/
def cacheChunks (items : List Nat) : List (List Nat) :=
  if items.take 200 = [] then []
  else items.take 200 :: cacheChunks (items.drop 200)
termination_by items.length
decreasing_by
  simp only [List.take_eq_nil_iff] at *
  rename_i h
  rcases items with _ | ⟨a, rest⟩
  · simp at h
  · simp [List.length_drop]
    omega

/-- Full non-paginated run of `cache_endpoint`: every loop iteration first
computes `percentage = (counter / total) * 100` (`database.py` line 163), which
raises `ZeroDivisionError` when `total == 0`; otherwise the loop issues the
batch fetches described by `cacheChunks`. -/
def cache_endpoint (items : List Nat) : Except PyErr (List (List Nat)) :=
  if items.length = 0 then .error .zeroDivisionError
  else .ok (cacheChunks items)

/-- The fixed ordered endpoint list of `rebuild_database`
(`database.py` lines 183-187); the boolean is the `all_at_once` flag. -/
def rebuildEndpoints : List (String × Bool) :=
  [("items", false), ("achievements", false), ("itemstats", true),
   ("titles", true), ("recipes", false), ("skins", false),
   ("currencies", true), ("skills", true), ("specializations", true),
   ("traits", true), ("worlds", true), ("minis", true)]

/-- Which collaborator calls fail during one `rebuild_database` run:
`endpointFails e` means `cache_endpoint(e)` raises, `ownerSendFails` means
`owner.send(msg)` inside the except handler raises, `indexFails` means one of
the `create_index` calls raises, `raidsFails` means `cache_raids()` raises. -/
structure RebuildEnv where
  endpointFails : String → Bool
  ownerSendFails : Bool
  indexFails : Bool
  raidsFails : Bool

/-- Outcome of a `rebuild_database` call: `raised` is the uncaught exception
that propagated to the caller (if any), `available` is the final value of the
process-wide `self.bot.available` flag. -/
structure RebuildResult where
  raised : Option PyErr
  available : Bool
  deriving DecidableEq, Repr

/-- The per-target loop of `rebuild_database` (`database.py` lines 188-195):
a failing `cache_endpoint` call is caught by the bare `except:`, but the
handler then awaits `owner.send(msg)`, which runs outside any try block, so a
failure there propagates. -/
def rebuildLoop (env : RebuildEnv) : List (String × Bool) → Option PyErr
  | [] => none
  | (name, _) :: rest =>
    if env.endpointFails name then
      if env.ownerSendFails then some .ownerSendError
      else rebuildLoop env rest
    else rebuildLoop env rest

/-- `rebuild_database` (`database.py` lines 177-210): sets
`self.bot.available = False`, runs the per-target loop, then — with no
try/finally — runs the `create_index` calls and `cache_raids()`, and only
after those sets `self.bot.available = True`.  Any exception after the loop
propagates with the flag still `False`. -/
def rebuild_database (env : RebuildEnv) : RebuildResult :=
  -- self.bot.available = False
  match rebuildLoop env rebuildEndpoints with
  | some e => ⟨some e, false⟩
  | none =>
    if env.indexFails then ⟨some .createIndexError, false⟩
    else if env.raidsFails then ⟨some .apiError, false⟩
    else ⟨none, true⟩

/-! ## Disambiguation resolver (`database.py`: `itemname_to_id`) -/

/-- A catalog record as stored by the sync engine: the fields of the item
documents that `itemname_to_id` reads (`_id`, `name`, `rarity`, `type`,
`flags`). -/
structure Record where
  id : Nat
  name : String
  rarity : String
  type : String
  flags : List String
  deriving DecidableEq, Repr

/-- Does `hay` start with `pat`? (helper for the regex-search embedding) -/
def startsWithChars : List Char → List Char → Bool
  | [], _ => true
  | _ :: _, [] => false
  | c :: cs, d :: ds => c == d && startsWithChars cs ds

/-- Does `pat` occur contiguously anywhere in `hay`? -/
def containsChars (pat : List Char) : List Char → Bool
  | [] => startsWithChars pat []
  | d :: ds => startsWithChars pat (d :: ds) || containsChars pat ds

/-- `re.IGNORECASE` handling: lower-case a string character by character. -/
def lowerChars (s : String) : List Char :=
  s.data.map Char.toLower

/-- Case-insensitive containment: the MongoDB query
`{"name": re.compile(re.escape(item) + ".*", re.IGNORECASE)}`
(`database.py` lines 241-243) matches a document whenever the escaped literal
occurs anywhere in the name (Mongo regexes are unanchored searches; the
trailing `.*` adds nothing). -/
def containsCI (name pattern : String) : Bool :=
  containsChars (lowerChars pattern) (lowerChars name)

/-- Case-insensitive whole-string match: the fallback query
`re.compile("^" + re.escape(item) + "$", re.IGNORECASE)`
(`database.py` lines 262-263). -/
def exactCI (name pattern : String) : Bool :=
  lowerChars name == lowerChars pattern

/-- The first query of `itemname_to_id`:
`{"name": search, "flags": {"$nin": flags}, **filters}` — the name matches the
unanchored pattern, no element of the record's flag array is in the excluded
list, and the extra filters hold (`database.py` line 243). -/
def queryMatch (item : String) (flags : List String) (extra : Record → Bool)
    (r : Record) : Bool :=
  containsCI r.name item && r.flags.all (fun f => !(flags.contains f)) && extra r

/-- The exact-match rerun keeps the flag exclusions and extra filters and only
replaces the name pattern (`query["name"] = search`, `database.py` line 264). -/
def exactQueryMatch (item : String) (flags : List String) (extra : Record → Bool)
    (r : Record) : Bool :=
  exactCI r.name item && r.flags.all (fun f => !(flags.contains f)) && extra r

/-- Python string comparison: lexicographic by code point. -/
def charListLe : List Char → List Char → Bool
  | [], _ => true
  | _ :: _, [] => false
  | c :: cs, d :: ds =>
    if c.toNat < d.toNat then true
    else if d.toNat < c.toNat then false
    else charListLe cs ds

def nameLe (a b : String) : Bool :=
  charListLe a.data b.data

/-- `items.sort(key=lambda i: i["name"])` (`database.py` line 281): stable
ascending sort by name, modelled as insertion sort that keeps earlier elements
first among equal keys. -/
def insertByName (x : Record) : List Record → List Record
  | [] => [x]
  | y :: ys => if nameLe y.name x.name then y :: insertByName x ys else x :: y :: ys

def sortByName (items : List Record) : List Record :=
  items.foldr insertByName []

/-- A candidate group: `{"name": ..., "rarity": ..., "ids": [...]}` as built by
`consolidate_duplicates` or the singleton wrapping (`database.py`
lines 221-231, 293-295). -/
structure Group where
  name : String
  rarity : String
  ids : List Nat
  deriving DecidableEq, Repr

/-- `consolidate_duplicates` (`database.py` lines 221-231): group records by
the `(name, rarity)` pair in first-seen key order, each group collecting its
member ids in traversal order. -/
def insertDup (r : Record) (acc : List Group) : List Group :=
  match acc with
  | [] => [⟨r.name, r.rarity, [r.id]⟩]
  | g :: gs =>
    if g.name = r.name ∧ g.rarity = r.rarity then ⟨g.name, g.rarity, g.ids ++ [r.id]⟩ :: gs
    else g :: insertDup r gs

def consolidate_duplicates (items : List Record) : List Group :=
  items.foldl (fun acc r => insertDup r acc) []

/-- Python `int(s)` on a reply string: optional surrounding whitespace, an
optional sign, then one or more decimal digits; anything else raises
`ValueError` (`num = int(answer.content) - 1`, `database.py` line 310). -/
def digitsToNat (cs : List Char) : Nat :=
  cs.foldl (fun acc c => 10 * acc + (c.toNat - '0'.toNat)) 0

/-- Strip leading and trailing whitespace, as Python `int()` does before
parsing. -/
def stripWS (cs : List Char) : List Char :=
  ((cs.dropWhile Char.isWhitespace).reverse.dropWhile Char.isWhitespace).reverse

def pyInt (s : String) : Option Int :=
  let t := stripWS s.data
  let signed : Int × List Char :=
    match t with
    | '-' :: rest => (-1, rest)
    | '+' :: rest => (1, rest)
    | l => (1, l)
  if signed.2 ≠ [] ∧ signed.2.all Char.isDigit then
    some (signed.1 * (digitsToNat signed.2 : Int))
  else none

/-- Python list subscript `l[i]` with its negative-index convention:
`l[i]` is `l[len(l) + i]` for negative `i`, and an out-of-range index raises
`IndexError` (modelled as `none`). -/
def pyIndex (l : List Group) (i : Int) : Option Group :=
  let j : Int := if i < 0 then i + l.length else i
  if h : 0 ≤ j ∧ j < l.length then l.get ⟨j.toNat, by omega⟩ else none

/-- Outcome of the interactive selection step (`database.py` lines 302-321). -/
inductive SelectResult where
  /-- a group was chosen; the prompt and reply are then best-effort deleted -/
  | chosen (g : Group)
  /-- the prompt was edited to `"That's not a number in the list"`, `None` returned -/
  | invalidEdit
  /-- the prompt was edited to `"No response in time"`, `None` returned -/
  | timeoutEdit
  /-- `distinct_items[0]` raised (unreachable on the paths the resolver takes) -/
  | indexCrash
  deriving DecidableEq, Repr

/-- The reply-handling of the selection step (`database.py` lines 303-314):
no reply within the deadline edits the prompt to the timeout message;
otherwise `num = int(answer.content) - 1; choice = distinct_items[num]` is
attempted and any exception edits the prompt to the invalid-input message. -/
def selectFromList (groups : List Group) (reply : Option String) : SelectResult :=
  match reply with
  | none => .timeoutEdit
  | some s =>
    match pyInt s with
    | none => .invalidEdit
    | some n =>
      match pyIndex groups (n - 1) with
      | some g => .chosen g
      | none => .invalidEdit

/-- The grouping-and-selection phase of `itemname_to_id` (`database.py`
lines 290-321): build `distinct_items` (grouped, or singleton-wrapped), then
prompt and await a reply only when `number != 1` — the guard uses the record
count `number`, not the length of `distinct_items`.  The returned boolean
records whether the numbered selection prompt was sent. -/
def selectionPhase (number : Nat) (items : List Record) (groupDuplicates : Bool)
    (reply : Option String) : Bool × SelectResult :=
  let distinct_items :=
    if groupDuplicates then consolidate_duplicates items
    else items.map (fun r => ⟨r.name, r.rarity, [r.id]⟩)
  if number ≠ 1 then
    (true, selectFromList distinct_items reply)
  else
    (false, match distinct_items.head? with
            | some g => .chosen g
            | none => .indexCrash)

/-- Outcome of the search-and-count phase of `itemname_to_id` (`database.py`
lines 241-281), up to and including materializing and sorting the cursor. -/
inductive Phase1 where
  /-- `"Your search gave me no results"`, `None` returned -/
  | noResults
  /-- the too-many-results prompt timed out, `None` returned -/
  | timedOut
  /-- the reply to the too-many-results prompt was not `"y"`, bare `return` -/
  | cancelled
  /-- `"Please be more specific"`, `None` returned -/
  | beMoreSpecific
  /-- proceed to grouping/selection with this count and these sorted records -/
  | proceed (number : Nat) (items : List Record)
  deriving DecidableEq, Repr

/-- The search-and-count phase of `itemname_to_id`: count the unanchored
matches; on more than 25 ask `Y/N` and on an affirmative reply recount with
the anchored pattern — but the cursor that is then materialized is
`self.db[database].find()` with no query (`database.py` line 266), i.e. every
document of the collection, which the phase returns sorted by name. -/
def itemnamePhase1 (db : List Record) (item : String) (flags : List String)
    (extra : Record → Bool) (reply : Option String) : Phase1 :=
  let results := db.filter (queryMatch item flags extra)
  let number := results.length
  if number = 0 then .noResults
  else if number > 25 then
    match reply with
    | none => .timedOut
    | some s =>
      if lowerChars s ≠ ['y'] then .cancelled
      else
        let exact := db.filter (exactQueryMatch item flags extra)
        if exact.length = 0 then .noResults
        else if exact.length > 25 then .beMoreSpecific
        else .proceed exact.length (sortByName db)
  else .proceed number (sortByName results)

/-! ## Concrete inputs used by the theorems -/

/-- The offer book of the spec's worked example: `[{110,5},{100,3},{90,1}]`. -/
def exampleOffers : List Offer := [⟨110, 5⟩, ⟨100, 3⟩, ⟨90, 1⟩]

/-- Environment where only the secondary raid sync (`cache_raids`) throws. -/
def raidsFailEnv : RebuildEnv := ⟨fun _ => false, false, false, true⟩

/-- Environment where every per-target refresh fails but all cleanup-relevant
calls succeed. -/
def allTargetsFailEnv : RebuildEnv := ⟨fun _ => true, false, false, false⟩

/-- Environment where the `items` refresh fails and the operator notification
(`owner.send`) then throws inside the except handler. -/
def notifyFailEnv : RebuildEnv := ⟨fun e => e == "items", true, false, false⟩

/-- Environment where only the `recipes` refresh fails. -/
def recipesFailEnv : RebuildEnv := ⟨fun e => e == "recipes", false, false, false⟩

/-- A catalog record with the given id and name (other fields fixed). -/
def mkRec (i : Nat) (n : String) : Record := ⟨i, n, "Basic", "Trophy", []⟩

/-- A 27-document collection: the record named `"a"`, twenty-five records
`"a01"`..`"a25"` (all containing `"a"`), and one record `"b"` matching
neither query. -/
def dbA : List Record :=
  mkRec 1 "a" ::
    ((List.range 25).map (fun k =>
      mkRec (k + 2) ("a" ++ (if k + 1 < 10 then "0" else "") ++ toString (k + 1))) ++
     [mkRec 27 "b"])

/-- Two candidate groups for the selection-step evaluation. -/
def gFine : Group := ⟨"Sword", "Fine", [1]⟩

def gRare : Group := ⟨"Sword", "Rare", [2]⟩

/-- Two records sharing `(name, rarity)`, which `consolidate_duplicates`
collapses into a single group. -/
def rDup1 : Record := ⟨1, "Zephyrite Lockpick", "Fine", "Trophy", []⟩

def rDup2 : Record := ⟨2, "Zephyrite Lockpick", "Fine", "Trophy", []⟩

/-! ## Helper lemmas -/

/-- The undercut walk computes the sum of listing counts over the longest
prefix of offers on which the stop comparator fails. -/
theorem undercutCount_eq_takeWhile (price : Nat) (side : Side) (offers : List Offer) :
    undercutCount price side offers =
      ((offers.takeWhile (fun o => !sideOp side o.unit_price price)).map
        Offer.listings).sum := by
  induction offers with
  | nil => rfl
  | cons o rest ih =>
    by_cases h : sideOp side o.unit_price price
    · simp [undercutCount, List.takeWhile, h]
    · simp only [Bool.not_eq_true] at h
      simp [undercutCount, List.takeWhile, h, ih]

/-- A denomination piece rendered for a non-zero value is a non-empty string. -/
theorem coinPiece_append_ne_empty (s e : String) (he : e.length ≠ 0) : s ++ e ≠ "" := by
  intro h
  have := congrArg String.length h
  simp [String.length_append] at this
  omega

/-- The batches concatenate back to the original index. -/
theorem cacheChunks_flatten (l : List Nat) : (cacheChunks l).flatten = l := by
  induction l using cacheChunks.induct with
  | case1 l h =>
    rw [cacheChunks, if_pos h]
    rcases (List.take_eq_nil_iff.mp h) with h' | h'
    · omega
    · simp [h']
  | case2 l h ih =>
    rw [cacheChunks, if_neg h]
    simp only [List.flatten_cons]
    rw [ih, List.take_append_drop]

/-- There are exactly `⌈N/200⌉` batches. -/
theorem cacheChunks_length (l : List Nat) :
    (cacheChunks l).length = (l.length + 199) / 200 := by
  induction l using cacheChunks.induct with
  | case1 l h =>
    rw [cacheChunks, if_pos h]
    rcases (List.take_eq_nil_iff.mp h) with h' | h'
    · omega
    · simp [h']
  | case2 l h ih =>
    rw [cacheChunks, if_neg h]
    have hl : l ≠ [] := by
      intro hnil
      exact h (by simp [hnil])
    have hlen : 1 ≤ l.length := by
      cases l
      · exact absurd rfl hl
      · simp
    simp only [List.length_cons, ih, List.length_drop]
    omega

/-- Every batch holds at most 200 ids. -/
theorem cacheChunks_size (l : List Nat) :
    ∀ b ∈ cacheChunks l, b.length ≤ 200 := by
  induction l using cacheChunks.induct with
  | case1 l h =>
    rw [cacheChunks, if_pos h]
    simp
  | case2 l h ih =>
    rw [cacheChunks, if_neg h]
    intro b hb
    rcases hb with _ | hb
    · exact List.length_take_le 200 l
    · exact ih b (by assumption)

/-- With a working operator notification, the per-target loop of
`rebuild_database` swallows every `cache_endpoint` failure. -/
theorem rebuildLoop_none (env : RebuildEnv) (targets : List (String × Bool))
    (h : env.ownerSendFails = false) : rebuildLoop env targets = none := by
  induction targets with
  | nil => rfl
  | cons t rest ih =>
    cases t
    simp [rebuildLoop, h, ih]

/-- `insertDup` never produces an empty group list. -/
theorem insertDup_ne_nil (r : Record) (acc : List Group) : insertDup r acc ≠ [] := by
  cases acc with
  | nil => simp [insertDup]
  | cons g gs =>
    simp only [insertDup]
    split <;> simp

/-- Grouping a non-empty record list yields a non-empty group list. -/
theorem consolidate_duplicates_ne_nil (items : List Record) (h : items ≠ []) :
    consolidate_duplicates items ≠ [] := by
  have step : ∀ (l : List Record) (acc : List Group), acc ≠ [] →
      l.foldl (fun acc r => insertDup r acc) acc ≠ [] := by
    intro l
    induction l with
    | nil => intro acc ha; simpa using ha
    | cons r rest ih =>
      intro acc _
      exact ih (insertDup r acc) (insertDup_ne_nil r acc)
  rcases items with _ | ⟨r, rest⟩
  · exact absurd rfl h
  · exact step rest (insertDup r []) (insertDup_ne_nil r [])

/-! ## Claim theorems -/

/-- C1, counterexample: when the secondary raid sync (`cache_raids`) throws,
`rebuild_database` exits with the process-wide availability flag still
`false` — the restoration is not on a guaranteed-cleanup path. -/
theorem rebuild_raids_throw_leaves_unavailable :
    ¬ ((rebuild_database raidsFailEnv).available = true) := by decide

/-- C1 (amended): `rebuild_database` restores availability to `true` on
completion whenever the operator notification, the index builds and the
secondary raid sync succeed, regardless of how many per-target refreshes
fail; if one of those later steps throws, the flag stays `false`. -/
theorem rebuild_database_restores_available (env : RebuildEnv)
    (hsend : env.ownerSendFails = false) (hidx : env.indexFails = false)
    (hraids : env.raidsFails = false) :
    (rebuild_database env).available = true := by
  simp [rebuild_database, rebuildLoop_none env rebuildEndpoints hsend, hidx, hraids]

/-- C1 witness: with every per-target refresh failing but notification, index
builds and raid sync succeeding, availability is restored. -/
theorem rebuild_database_restores_available_witness :
    allTargetsFailEnv.ownerSendFails = false ∧ allTargetsFailEnv.indexFails = false ∧
      allTargetsFailEnv.raidsFails = false ∧
      (rebuild_database allTargetsFailEnv).available = true :=
  ⟨rfl, rfl, rfl, rebuild_database_restores_available allTargetsFailEnv rfl rfl rfl⟩

/-- C6, counterexample: if the `items` refresh fails and the operator
notification `owner.send` then throws inside the bare-except handler,
the exception propagates — `rebuild_database` does raise. -/
theorem rebuild_notify_throw_raises :
    ¬ ((rebuild_database notifyFailEnv).raised = none) := by decide

/-- C6 (amended): `rebuild_database` never raises from per-category fetch or
upsert failures themselves (the bare `except:` catches them), but exceptions
from the operator notification, the index builds or the secondary raid
caching propagate to the caller. -/
theorem rebuild_database_no_raise (env : RebuildEnv)
    (hsend : env.ownerSendFails = false) (hidx : env.indexFails = false)
    (hraids : env.raidsFails = false) :
    (rebuild_database env).raised = none := by
  simp [rebuild_database, rebuildLoop_none env rebuildEndpoints hsend, hidx, hraids]

/-- C6 witness: a failing `recipes` refresh alone does not make
`rebuild_database` raise. -/
theorem rebuild_database_no_raise_witness :
    recipesFailEnv.ownerSendFails = false ∧ recipesFailEnv.indexFails = false ∧
      recipesFailEnv.raidsFails = false ∧
      (rebuild_database recipesFailEnv).raised = none :=
  ⟨rfl, rfl, rfl, rebuild_database_no_raise recipesFailEnv rfl rfl rfl⟩

/-- C2: on the affirmative exact-match path with 1 exact result, the phase
materializes the whole 27-document collection (the cursor is rebuilt with no
query), which differs from the exact-match record set the claim describes. -/
theorem itemname_exact_path_materializes_whole_collection :
    itemnamePhase1 dbA "a" [] (fun _ => true) (some "y") =
        .proceed 1 (sortByName dbA) ∧
      sortByName dbA ≠
        sortByName (dbA.filter (exactQueryMatch "a" [] (fun _ => true))) := by
  constructor
  · decide
  · decide

/-- C3, counterexample: on sorted buy offers `[{110,5},{100,3},{90,1}]` with
ownPrice 100 and side `sells`, `undercutCount` does not return 5 — the very
first offer already satisfies the stop comparator (110 > 100). -/
theorem undercut_sells_example_not_five :
    ¬ (undercutCount 100 Side.sells exampleOffers = 5) := by decide

/-- C3 (amended): on that input the walk stops immediately and returns 0. -/
theorem undercut_sells_example_zero :
    undercutCount 100 Side.sells exampleOffers = 0 := by decide

/-- C4: the reply `"0"` parses as an integer outside 1..len, yet the selection
step resolves to the last candidate group via Python negative indexing instead
of editing the prompt to the invalid-input message and returning no result. -/
theorem select_reply_zero_resolves_last :
    selectFromList [gFine, gRare] (some "0") = .chosen gRare ∧
      selectFromList [gFine, gRare] (some "0") ≠ .invalidEdit := by decide

/-- C5, counterexample: two records sharing `(name, rarity)` collapse into
exactly one candidate group, yet the selection prompt is still sent (the skip
guard tests the record count `number`, which is 2), and with no reply the
session times out with no result. -/
theorem single_group_still_prompts :
    (consolidate_duplicates [rDup1, rDup2]).length = 1 ∧
      selectionPhase 2 [rDup1, rDup2] true none = (true, .timeoutEdit) := by decide

/-- C5 (amended): the interactive prompt is skipped exactly when the record
count `number` equals 1 — then the sole group is returned with no prompt —
while any other count sends the prompt even if grouping collapsed everything
into a single candidate group. -/
theorem selectionPhase_prompt_iff :
    (∀ (items : List Record) (gd : Bool) (reply : Option String), items ≠ [] →
      (selectionPhase 1 items gd reply).1 = false ∧
        ∃ g, (selectionPhase 1 items gd reply).2 = SelectResult.chosen g) ∧
    (∀ (n : Nat) (items : List Record) (gd : Bool) (reply : Option String), n ≠ 1 →
      (selectionPhase n items gd reply).1 = true) := by
  constructor
  · intro items gd reply h
    have hd : (if gd then consolidate_duplicates items
        else items.map (fun r => (⟨r.name, r.rarity, [r.id]⟩ : Group))) ≠ [] := by
      cases gd
      · simp [h]
      · simp [consolidate_duplicates_ne_nil items h]
    obtain ⟨g, gs, hgs⟩ := List.exists_cons_of_ne_nil hd
    refine ⟨?_, g, ?_⟩
    · simp [selectionPhase]
    · simp [selectionPhase, hgs]
  · intro n items gd reply hn
    simp [selectionPhase, hn]

/-- C5 witness: one record skips the prompt; two collapsing records with
record count 2 still prompt. -/
theorem selectionPhase_prompt_iff_witness :
    (([rDup1] : List Record) ≠ [] ∧ (selectionPhase 1 [rDup1] true none).1 = false ∧
      ∃ g, (selectionPhase 1 [rDup1] true none).2 = SelectResult.chosen g) ∧
    ((2 : Nat) ≠ 1 ∧ (selectionPhase 2 [rDup1, rDup2] true none).1 = true) :=
  ⟨⟨by decide, selectionPhase_prompt_iff.1 [rDup1] true none (by decide)⟩,
    ⟨by decide, selectionPhase_prompt_iff.2 2 [rDup1, rDup2] true none (by decide)⟩⟩

/-- C7: in non-paginated mode the loop issues exactly `⌈N/200⌉` batch fetches,
each of at most 200 ids, whose concatenation is exactly the id index; for a
non-empty index the run completes returning precisely those batches. -/
theorem cache_endpoint_batching (items : List Nat) :
    ((cacheChunks items).length = (items.length + 199) / 200 ∧
      (∀ b ∈ cacheChunks items, b.length ≤ 200) ∧
      (cacheChunks items).flatten = items) ∧
    (items ≠ [] → cache_endpoint items = .ok (cacheChunks items)) := by
  refine ⟨⟨cacheChunks_length items, cacheChunks_size items, cacheChunks_flatten items⟩, ?_⟩
  intro h
  rw [cache_endpoint, if_neg (by simpa [List.length_eq_zero] using h)]

/-- C7 witness: instantiation at a 201-id index (two batches). -/
theorem cache_endpoint_batching_witness :
    ((cacheChunks (List.range 201)).length = ((List.range 201).length + 199) / 200 ∧
      (∀ b ∈ cacheChunks (List.range 201), b.length ≤ 200) ∧
      (cacheChunks (List.range 201)).flatten = List.range 201) ∧
    (List.range 201 ≠ [] → cache_endpoint (List.range 201) =
      .ok (cacheChunks (List.range 201))) :=
  cache_endpoint_batching (List.range 201)

/-- C8: for every non-empty offer list sorted in the side's priority order,
the walk returns the sum of listing counts over the longest prefix on which
the side comparator fails, and returns 0 when the very first offer already
satisfies the comparator. -/
theorem undercutCount_walk (price : Nat) (side : Side) (offers : List Offer)
    (h1 : offers ≠ []) (h2 : sideSorted side offers = true) :
    undercutCount price side offers =
        ((offers.takeWhile (fun o => !sideOp side o.unit_price price)).map
          Offer.listings).sum ∧
      (∀ o, offers.head? = some o → sideOp side o.unit_price price = true →
        undercutCount price side offers = 0) := by
  refine ⟨undercutCount_eq_takeWhile price side offers, ?_⟩
  intro o ho hop
  cases offers with
  | nil => cases ho
  | cons a rest =>
    simp only [List.head?_cons, Option.some.injEq] at ho
    subst ho
    simp [undercutCount, hop]

/-- C8 witness: the spec's buy-side example, descending offers, result 8. -/
theorem undercutCount_walk_witness :
    exampleOffers ≠ [] ∧ sideSorted Side.buys exampleOffers = true ∧
      (undercutCount 100 Side.buys exampleOffers =
          ((exampleOffers.takeWhile
            (fun o => !sideOp Side.buys o.unit_price 100)).map Offer.listings).sum ∧
        (∀ o, exampleOffers.head? = some o → sideOp Side.buys o.unit_price 100 = true →
          undercutCount 100 Side.buys exampleOffers = 0)) :=
  ⟨by decide, by decide,
    undercutCount_walk 100 Side.buys exampleOffers (by decide) (by decide)⟩

/-- C9: `gold_to_coins` decomposes with divisors 10000 and 100, maps 123456 to
(12, 34, 56), and the rendering omits exactly the zero-valued denominations. -/
theorem gold_to_coins_spec (money : Nat) :
    (gold_to_coins money).gold = money / 10000 ∧
      (gold_to_coins money).silver = money % 10000 / 100 ∧
      (gold_to_coins money).copper = money % 100 ∧
      gold_to_coins 123456 = ⟨12, 34, 56⟩ ∧
      coinRender money = coinRenderSpec money := by
  refine ⟨rfl, rfl, ?_, by decide, ?_⟩
  · show money % 10000 % 100 = money % 100
    exact Nat.mod_mod_of_dvd money (by norm_num)
  · have hg' : toString (gold_to_coins money).gold ++ "{gold}" ≠ "" :=
      coinPiece_append_ne_empty _ _ (by decide)
    have hs' : toString (gold_to_coins money).silver ++ "{silver}" ≠ "" :=
      coinPiece_append_ne_empty _ _ (by decide)
    have hc' : toString (gold_to_coins money).copper ++ "{copper}" ≠ "" :=
      coinPiece_append_ne_empty _ _ (by decide)
    by_cases hg : (gold_to_coins money).gold = 0 <;>
      by_cases hs : (gold_to_coins money).silver = 0 <;>
        by_cases hc : (gold_to_coins money).copper = 0 <;>
          simp [coinRender, coinRenderSpec, coinPiece, hg, hs, hc, hg', hs', hc']

/-- C10: `bestOffer` (the unguarded `offers[0]["unit_price"]`) hits its
`none` branch exactly on the empty offer book — under the non-emptiness
precondition the access is safe. -/
theorem bestOffer_none_iff (offers : List Offer) :
    bestOffer offers = none ↔ offers = [] := by
  cases offers <;> simp [bestOffer]

end GW2Bot
